import Mathlib

/-!
Shallow embedding of the mtc-platform commerce services (cart, order,
payment, digital download, product) and proofs about their behaviour.

The database tables backing each service are modelled as lists of rows;
each service method becomes a function from the table state (plus a `now`
timestamp standing for `Date.now()/1000`) to the updated state, returning
`Option`/`Except` where the TypeScript method can throw.  JavaScript
numbers are modelled as `ℚ`; SQL `UPDATE ... WHERE id = ?` becomes a map
over the rows whose key matches.
-/

namespace MtcPlatform

/-! ### Generic row helpers: SQL-style lookup and update by key -/

/-- Find the first row whose key equals `id` (models `SELECT ... WHERE key = ? ... .first()`). -/
def findBy {α : Type} (key : α → String) (l : List α) (id : String) : Option α :=
  l.find? (fun x => key x == id)

/-- Update every row whose key equals `id` (models `UPDATE ... WHERE key = ?`). -/
def updateBy {α : Type} (key : α → String) (l : List α) (id : String) (f : α → α) : List α :=
  l.map (fun x => if key x == id then f x else x)

theorem findBy_updateBy {α : Type} (key : α → String) (l : List α) (id : String)
    (f : α → α) (hf : ∀ x, key (f x) = key x) :
    findBy key (updateBy key l id f) id = (findBy key l id).map f := by
  induction l with
  | nil => rfl
  | cons a l ih =>
    simp only [findBy, updateBy, List.map_cons] at ih ⊢
    by_cases h : (key a == id) = true
    · rw [if_pos h, List.find?_cons_of_pos (p := fun x => key x == id) _
        (by show (key (f a) == id) = true; rw [hf]; exact h),
        List.find?_cons_of_pos (p := fun x => key x == id) _ h, Option.map_some']
    · rw [if_neg h, List.find?_cons_of_neg (p := fun x => key x == id) _ h,
        List.find?_cons_of_neg (p := fun x => key x == id) _ h]
      exact ih

theorem updateBy_eq_of_not_mem {α : Type} (key : α → String) (l : List α) (id : String)
    (f : α → α) (h : ∀ x ∈ l, key x ≠ id) : updateBy key l id f = l := by
  induction l with
  | nil => rfl
  | cons a l ih =>
    simp only [updateBy, List.map_cons] at ih ⊢
    rw [if_neg (by simpa using h a (List.mem_cons_self a l)),
      ih (fun x hx => h x (List.mem_cons_of_mem a hx))]

theorem updateBy_append {α : Type} (key : α → String) (l₁ l₂ : List α) (id : String)
    (f : α → α) : updateBy key (l₁ ++ l₂) id f = updateBy key l₁ id f ++ updateBy key l₂ id f :=
  List.map_append _ _ _

theorem findBy_eq_none_of_not_mem {α : Type} (key : α → String) (l : List α) (id : String)
    (h : ∀ x ∈ l, key x ≠ id) : findBy key l id = none := by
  apply List.find?_eq_none.mpr
  intro x hx
  simpa using h x hx

theorem findBy_append_right {α : Type} (key : α → String) (l₁ l₂ : List α) (id : String)
    (h : ∀ x ∈ l₁, key x ≠ id) : findBy key (l₁ ++ l₂) id = findBy key l₂ id := by
  induction l₁ with
  | nil => rfl
  | cons a l ih =>
    simp only [findBy, List.cons_append] at ih ⊢
    rw [List.find?_cons_of_neg (p := fun x => key x == id) _
      (by simpa using h a (List.mem_cons_self a l))]
    exact ih (fun x hx => h x (List.mem_cons_of_mem a hx))

/-! ### Cart service (`src/unnamed/part_003`, `CartService`) -/

/-- A row of the `stores` table, restricted to the fields the cart engine reads. -/
structure Store where
  id : String
  taxRate : ℚ
deriving DecidableEq

/-- A row of the `carts` table. -/
structure Cart where
  id : String
  storeId : String
  userId : Option String
  sessionId : Option String
  totalPrice : ℚ
  totalTax : ℚ
  totalShipping : ℚ
  couponCode : Option String
  couponDiscount : ℚ
  expiresAt : Option Nat
  createdAt : Nat
  updatedAt : Nat
deriving DecidableEq

/-- A row of the `cart_items` table. -/
structure CartItem where
  id : String
  cartId : String
  productId : String
  variantId : Option String
  quantity : ℚ
  price : ℚ
  createdAt : Nat
deriving DecidableEq

/-- Combined database state seen by `CartService`. -/
structure CartDB where
  stores : List Store
  carts : List Cart
  items : List CartItem
deriving DecidableEq

/-- Input of `CartService.addItem`. -/
structure AddCartItemInput where
  productId : String
  variantId : Option String
  quantity : ℚ
  price : ℚ
deriving DecidableEq

/-- `CartService.getCart`. -/
def getCart (db : CartDB) (id : String) : Option Cart :=
  findBy Cart.id db.carts id

/-- `CartService.getItems`: all items of the cart (insertion order). -/
def getItems (db : CartDB) (cartId : String) : List CartItem :=
  db.items.filter (fun it => it.cartId == cartId)

/-- The subtotal loop of `recalculateCart`: `subtotal += item.price * item.quantity`. -/
def cartSubtotal (items : List CartItem) : ℚ :=
  items.foldl (fun acc it => acc + it.price * it.quantity) 0

/-- The `SELECT tax_rate FROM stores WHERE id = ?` lookup of `recalculateCart`,
with the JavaScript `storeResult?.tax_rate || 0` fallback. -/
def storeTaxRate (db : CartDB) (storeId : String) : ℚ :=
  match findBy Store.id db.stores storeId with
  | some s => s.taxRate
  | none => 0

/-- The persist step of `CartService.recalculateCart`: tax and total are
computed once from the found cart, the current items, and the store tax
rate, then written to every row whose id matches. -/
def recalculatedDB (db : CartDB) (cartId : String) (now : Nat) (cart : Cart) : CartDB :=
  let subtotal := cartSubtotal (getItems db cartId)
  let tax := subtotal * (storeTaxRate db cart.storeId / 100)
  let total := subtotal + tax + cart.totalShipping - cart.couponDiscount
  { db with
    carts := updateBy Cart.id db.carts cartId
      (fun c => { c with totalPrice := total, totalTax := tax, updatedAt := now }) }

/-- `CartService.recalculateCart`: recomputes tax and total from the current
items, store tax rate, and the cart's stored shipping and coupon discount,
and persists `total_price`/`total_tax`.  Returns `none` when the cart does
not exist (the method throws). -/
def recalculateCart (db : CartDB) (cartId : String) (now : Nat) : Option CartDB :=
  (getCart db cartId).map (recalculatedDB db cartId now)

/-- `CartService.addItem`: inserts the item row, then recalculates. -/
def cartAddItem (db : CartDB) (cartId : String) (input : AddCartItemInput)
    (freshId : String) (now : Nat) : Option (CartDB × CartItem) :=
  let item : CartItem :=
    { id := freshId, cartId := cartId, productId := input.productId,
      variantId := input.variantId, quantity := input.quantity,
      price := input.price, createdAt := now }
  let db₁ : CartDB := { db with items := db.items ++ [item] }
  (recalculateCart db₁ cartId now).map (fun db₂ => (db₂, item))

/-- `CartService.removeItem`: deletes the item row, then recalculates its cart. -/
def cartRemoveItem (db : CartDB) (itemId : String) (now : Nat) : Option CartDB :=
  (findBy CartItem.id db.items itemId).bind fun item =>
    let db₁ : CartDB := { db with items := db.items.filter (fun it => !(it.id == itemId)) }
    recalculateCart db₁ item.cartId now

/-- `CartService.updateItem`: quantity ≤ 0 removes the item, otherwise
updates the quantity and recalculates the item's cart. -/
def cartUpdateItem (db : CartDB) (itemId : String) (quantity : ℚ) (now : Nat) :
    Option CartDB :=
  (findBy CartItem.id db.items itemId).bind fun item =>
    if quantity ≤ 0 then cartRemoveItem db itemId now
    else
      let db₁ : CartDB :=
        { db with items := updateBy CartItem.id db.items itemId (fun it => { it with quantity := quantity }) }
      recalculateCart db₁ item.cartId now

/-- `CartService.applyCoupon`: stores the code and discount, then recalculates. -/
def applyCoupon (db : CartDB) (cartId couponCode : String) (discount : ℚ) (now : Nat) :
    Option CartDB :=
  let db₁ : CartDB :=
    { db with
      carts := updateBy Cart.id db.carts cartId
        (fun c => { c with couponCode := some couponCode, couponDiscount := discount, updatedAt := now }) }
  recalculateCart db₁ cartId now

/-- `CartService.removeCoupon`. -/
def removeCoupon (db : CartDB) (cartId : String) (now : Nat) : Option CartDB :=
  let db₁ : CartDB :=
    { db with
      carts := updateBy Cart.id db.carts cartId
        (fun c => { c with couponCode := none, couponDiscount := 0, updatedAt := now }) }
  recalculateCart db₁ cartId now

/-- `CartService.setShipping`: stores the shipping cost, then recalculates. -/
def setShipping (db : CartDB) (cartId : String) (shippingCost : ℚ) (now : Nat) :
    Option CartDB :=
  let db₁ : CartDB :=
    { db with
      carts := updateBy Cart.id db.carts cartId
        (fun c => { c with totalShipping := shippingCost, updatedAt := now }) }
  recalculateCart db₁ cartId now

/-- The SQL predicate `expires_at < ?` of `deleteExpiredCarts` (NULL rows do not match). -/
def cartExpired (c : Cart) (now : Nat) : Bool :=
  match c.expiresAt with
  | some e => e < now
  | none => false

/-- Modelled from the spec: the `carts`/`cart_items` schema (in particular the
cascading foreign key from `cart_items.cart_id` to `carts.id`) is not among the
source files — `CartService.deleteExpiredCarts` itself only issues
`DELETE FROM carts WHERE expires_at < ?`.  The spec states that items cascade
("purges carts whose expiresAt has passed; items cascade"), so deleting an
expired cart also deletes the items referencing it. -/
def deleteExpiredCarts (db : CartDB) (now : Nat) : CartDB :=
  { db with
    carts := db.carts.filter (fun c => !cartExpired c now),
    items := db.items.filter
      (fun it => !(db.carts.any (fun c => c.id == it.cartId && cartExpired c now))) }

/-- One cart mutation, for quantifying over operation sequences. -/
inductive CartOp where
  | add (cartId : String) (input : AddCartItemInput) (freshId : String) (now : Nat)
  | update (itemId : String) (quantity : ℚ) (now : Nat)
  | remove (itemId : String) (now : Nat)
  | coupon (cartId couponCode : String) (discount : ℚ) (now : Nat)
  | uncoupon (cartId : String) (now : Nat)
  | ship (cartId : String) (cost : ℚ) (now : Nat)
deriving DecidableEq

/-- Run one cart operation against the database. -/
def applyCartOp (db : CartDB) : CartOp → Option CartDB
  | .add cartId input freshId now => (cartAddItem db cartId input freshId now).map (·.1)
  | .update itemId quantity now => cartUpdateItem db itemId quantity now
  | .remove itemId now => cartRemoveItem db itemId now
  | .coupon cartId couponCode discount now => applyCoupon db cartId couponCode discount now
  | .uncoupon cartId now => removeCoupon db cartId now
  | .ship cartId cost now => setShipping db cartId cost now

/-- Run a sequence of cart operations; `none` as soon as one throws. -/
def runCartOps (db : CartDB) : List CartOp → Option CartDB
  | [] => some db
  | op :: rest =>
    match applyCartOp db op with
    | none => none
    | some db₁ => runCartOps db₁ rest

/-- The cart whose totals an operation recomputes. -/
def opCartId (db : CartDB) : CartOp → Option String
  | .add cartId _ _ _ => some cartId
  | .update itemId _ _ => (findBy CartItem.id db.items itemId).map (·.cartId)
  | .remove itemId _ => (findBy CartItem.id db.items itemId).map (·.cartId)
  | .coupon cartId _ _ _ => some cartId
  | .uncoupon cartId _ => some cartId
  | .ship cartId _ _ => some cartId

/-- The persisted-totals identity of the spec: tax equals subtotal times
`taxRate/100` and the total equals subtotal + tax + shipping − discount,
where the subtotal ranges over the cart's current items. -/
def cartTotalsInvariant (db : CartDB) (cartId : String) : Prop :=
  ∀ cart s, getCart db cartId = some cart →
    findBy Store.id db.stores cart.storeId = some s →
    cart.totalTax = cartSubtotal (getItems db cartId) * (s.taxRate / 100) ∧
    cart.totalPrice =
      cartSubtotal (getItems db cartId) + cart.totalTax + cart.totalShipping - cart.couponDiscount

/-! ### Cart theorems -/

theorem recalculatedDB_invariant (db : CartDB) (cartId : String) (now : Nat) (cart : Cart)
    (hc : getCart db cartId = some cart) :
    cartTotalsInvariant (recalculatedDB db cartId now cart) cartId := by
  intro cart' s hcart' hs
  have hfind : getCart (recalculatedDB db cartId now cart) cartId =
      (getCart db cartId).map (fun c =>
        { c with
          totalPrice := cartSubtotal (getItems db cartId) +
            cartSubtotal (getItems db cartId) * (storeTaxRate db cart.storeId / 100) +
            cart.totalShipping - cart.couponDiscount,
          totalTax := cartSubtotal (getItems db cartId) * (storeTaxRate db cart.storeId / 100),
          updatedAt := now }) :=
    findBy_updateBy Cart.id db.carts cartId _ (fun _ => rfl)
  rw [hc, Option.map_some'] at hfind
  rw [hfind] at hcart'
  obtain rfl := (Option.some.inj hcart').symm
  have hsr : storeTaxRate db cart.storeId = s.taxRate := by
    have hs' : findBy Store.id db.stores cart.storeId = some s := hs
    unfold storeTaxRate
    rw [hs']
  constructor
  · show cartSubtotal (getItems db cartId) * (storeTaxRate db cart.storeId / 100) =
      cartSubtotal (getItems db cartId) * (s.taxRate / 100)
    rw [hsr]
  · rfl

theorem recalculateCart_invariant (db db' : CartDB) (cartId : String) (now : Nat)
    (h : recalculateCart db cartId now = some db') :
    cartTotalsInvariant db' cartId := by
  obtain ⟨cart, hc, rfl⟩ := Option.map_eq_some'.mp h
  exact recalculatedDB_invariant db cartId now cart hc

theorem applyCartOp_recalculates (db db' : CartDB) (op : CartOp) (cid : String)
    (hop : applyCartOp db op = some db') (hcid : opCartId db op = some cid) :
    ∃ dbMid now, recalculateCart dbMid cid now = some db' := by
  cases op with
  | add cartId input freshId now =>
    obtain rfl := Option.some.inj hcid
    obtain ⟨pair, hp, rfl⟩ := Option.map_eq_some'.mp hop
    obtain ⟨db₂, h₂, rfl⟩ := Option.map_eq_some'.mp hp
    exact ⟨_, now, h₂⟩
  | update itemId quantity now =>
    obtain ⟨item, hi, hop'⟩ := Option.bind_eq_some.mp hop
    have hcid' : (findBy CartItem.id db.items itemId).map CartItem.cartId = some cid := hcid
    rw [hi, Option.map_some'] at hcid'
    obtain rfl := Option.some.inj hcid'
    by_cases hq : quantity ≤ 0
    · rw [if_pos hq] at hop'
      obtain ⟨item₂, hi₂, h₂⟩ := Option.bind_eq_some.mp hop'
      rw [hi] at hi₂
      obtain rfl := Option.some.inj hi₂
      exact ⟨_, now, h₂⟩
    · rw [if_neg hq] at hop'
      exact ⟨_, now, hop'⟩
  | remove itemId now =>
    obtain ⟨item, hi, hop'⟩ := Option.bind_eq_some.mp hop
    have hcid' : (findBy CartItem.id db.items itemId).map CartItem.cartId = some cid := hcid
    rw [hi, Option.map_some'] at hcid'
    obtain rfl := Option.some.inj hcid'
    exact ⟨_, now, hop'⟩
  | coupon cartId couponCode discount now =>
    obtain rfl := Option.some.inj hcid
    exact ⟨_, now, hop⟩
  | uncoupon cartId now =>
    obtain rfl := Option.some.inj hcid
    exact ⟨_, now, hop⟩
  | ship cartId cost now =>
    obtain rfl := Option.some.inj hcid
    exact ⟨_, now, hop⟩

/-- C1: after the final operation of any sequence of
addItem/updateItem/removeItem/applyCoupon/removeCoupon/setShipping calls,
the recompute leaves the persisted totals of the affected cart satisfying
totalTax = subtotal × (store.taxRate / 100) and
totalPrice = subtotal + totalTax + totalShipping − couponDiscount, where
the subtotal ranges over the cart's current items. -/
theorem cart_totals_correct_after_final_op
    (db dbMid db' : CartDB) (ops : List CartOp) (op : CartOp) (cid : String)
    (hrun : runCartOps db ops = some dbMid)
    (hop : applyCartOp dbMid op = some db')
    (hcid : opCartId dbMid op = some cid) :
    cartTotalsInvariant db' cid := by
  obtain ⟨dbX, now, h⟩ := applyCartOp_recalculates dbMid db' op cid hop hcid
  exact recalculateCart_invariant dbX db' cid now h

def c1cart : Cart :=
  { id := "cart_1", storeId := "store_1", userId := none, sessionId := none,
    totalPrice := 0, totalTax := 0, totalShipping := 0, couponCode := none,
    couponDiscount := 0, expiresAt := some 1000, createdAt := 0, updatedAt := 0 }

def c1db : CartDB :=
  { stores := [{ id := "store_1", taxRate := 10 }], carts := [c1cart], items := [] }

def c1db' : CartDB := (applyCartOp c1db (CartOp.ship "cart_1" 5 3)).getD c1db

theorem cart_totals_correct_witness :
    applyCartOp c1db (CartOp.ship "cart_1" 5 3) = some c1db' ∧
      cartTotalsInvariant c1db' "cart_1" := by
  have h : applyCartOp c1db (CartOp.ship "cart_1" 5 3) = some c1db' := rfl
  exact ⟨h, cart_totals_correct_after_final_op c1db c1db c1db' [] (CartOp.ship "cart_1" 5 3)
    "cart_1" rfl h rfl⟩

/-- C8: deleteExpiredCarts removes exactly the carts whose expiresAt has
passed, removes exactly the items belonging to such carts (the cascade,
modelled from the spec), and leaves everything else untouched. -/
theorem deleteExpiredCarts_spec (db : CartDB) (now : Nat) :
    (∀ c ∈ (deleteExpiredCarts db now).carts, cartExpired c now = false) ∧
    (∀ c ∈ db.carts, cartExpired c now = false → c ∈ (deleteExpiredCarts db now).carts) ∧
    (∀ c ∈ (deleteExpiredCarts db now).carts, c ∈ db.carts) ∧
    (∀ it ∈ (deleteExpiredCarts db now).items,
      ∀ c ∈ db.carts, c.id = it.cartId → cartExpired c now = false) ∧
    (∀ it ∈ db.items, (∀ c ∈ db.carts, c.id = it.cartId → cartExpired c now = false) →
      it ∈ (deleteExpiredCarts db now).items) ∧
    (∀ it ∈ (deleteExpiredCarts db now).items, it ∈ db.items) ∧
    (deleteExpiredCarts db now).stores = db.stores := by
  refine ⟨?_, ?_, ?_, ?_, ?_, ?_, rfl⟩
  · intro c hc
    have := (List.mem_filter.mp hc).2
    simpa using this
  · intro c hc hexp
    exact List.mem_filter.mpr ⟨hc, by simp [hexp]⟩
  · intro c hc
    exact (List.mem_filter.mp hc).1
  · intro it hit c hc hid
    have h₂ := (List.mem_filter.mp hit).2
    simp only [Bool.not_eq_eq_eq_not, Bool.not_true, List.any_eq_false] at h₂
    have := h₂ c hc
    simp only [Bool.and_eq_true, beq_iff_eq, not_and] at this
    cases hx : cartExpired c now with
    | false => rfl
    | true => exact absurd hx (this hid)
  · intro it hit hsafe
    refine List.mem_filter.mpr ⟨hit, ?_⟩
    simp only [Bool.not_eq_eq_eq_not, Bool.not_true, List.any_eq_false]
    intro c hc
    simp only [Bool.and_eq_true, beq_iff_eq, not_and]
    intro hid
    rw [hsafe c hc hid]
    simp
  · intro it hit
    exact (List.mem_filter.mp hit).1

/-! ### Order service (`src/src/services/order-service.ts`, `OrderService`) -/

inductive OrderStatus where
  | pending | paid | processing | shipped | delivered | cancelled | refunded
deriving DecidableEq

inductive OrdPaymentStatus where
  | unpaid | paid | refunded | failed
deriving DecidableEq

inductive ShippingStatus where
  | unshipped | shipped | delivered | returned
deriving DecidableEq

/-- A row of the `orders` table. -/
structure Order where
  id : String
  storeId : String
  orderNumber : String
  userId : Option String
  email : String
  status : OrderStatus
  paymentStatus : OrdPaymentStatus
  shippingStatus : ShippingStatus
  subtotal : ℚ
  tax : ℚ
  shipping : ℚ
  discount : ℚ
  total : ℚ
  currency : String
  paymentMethod : Option String
  paymentId : Option String
  shippingAddress : Option String
  billingAddress : Option String
  notes : Option String
  metadata : Option String
  createdAt : Nat
  updatedAt : Nat
deriving DecidableEq

/-- Input of `OrderService.updateOrder` (a partial update). -/
structure UpdateOrderInput where
  status : Option OrderStatus
  paymentStatus : Option OrdPaymentStatus
  shippingStatus : Option ShippingStatus
  notes : Option String
  metadata : Option String
deriving DecidableEq

/-- `OrderService.getOrder`. -/
def getOrder (orders : List Order) (id : String) : Option Order :=
  findBy Order.id orders id

/-- The JavaScript `x || null` bind applied to an optional string: an empty
string is falsy and is stored as NULL. -/
def normStr (s : Option String) : Option String :=
  match s with
  | some t => if t = "" then none else some t
  | none => none

/-- `OrderService.updateOrder`: merges the partial input over the loaded
order, then persists only status, payment_status, shipping_status, notes,
metadata and updated_at.  Throws (returns `none`) when the order is missing. -/
def updateOrder (orders : List Order) (id : String) (input : UpdateOrderInput) (now : Nat) :
    Option (List Order) :=
  (getOrder orders id).map fun o =>
    let merged : Order :=
      { o with
        status := input.status.getD o.status,
        paymentStatus := input.paymentStatus.getD o.paymentStatus,
        shippingStatus := input.shippingStatus.getD o.shippingStatus,
        notes := match input.notes with | some n => some n | none => o.notes,
        metadata := match input.metadata with | some m => some m | none => o.metadata,
        updatedAt := now }
    updateBy Order.id orders id fun r =>
      { r with
        status := merged.status,
        paymentStatus := merged.paymentStatus,
        shippingStatus := merged.shippingStatus,
        notes := normStr merged.notes,
        metadata := merged.metadata,
        updatedAt := merged.updatedAt }

/-- `OrderService.updateOrderStatus` (a bare `UPDATE`, no existence check). -/
def updateOrderStatus (orders : List Order) (id : String) (status : OrderStatus)
    (now : Nat) : List Order :=
  updateBy Order.id orders id fun r => { r with status := status, updatedAt := now }

/-- `OrderService.updatePaymentStatus`. -/
def updatePaymentStatus (orders : List Order) (id : String) (status : OrdPaymentStatus)
    (now : Nat) : List Order :=
  updateBy Order.id orders id fun r => { r with paymentStatus := status, updatedAt := now }

/-- `OrderService.updateShippingStatus`. -/
def updateShippingStatus (orders : List Order) (id : String) (status : ShippingStatus)
    (now : Nat) : List Order :=
  updateBy Order.id orders id fun r => { r with shippingStatus := status, updatedAt := now }

/-- `OrderService.cancelOrder` delegates to `updateOrderStatus` with `cancelled`. -/
def cancelOrder (orders : List Order) (id : String) (now : Nat) : List Order :=
  updateOrderStatus orders id OrderStatus.cancelled now

/-- `OrderService.markAsPaid`: sets paymentStatus = paid and status = processing,
recording the paymentId when one is supplied. -/
def markAsPaid (orders : List Order) (id : String) (paymentId : Option String)
    (now : Nat) : List Order :=
  match paymentId with
  | some pid =>
    updateBy Order.id orders id fun r =>
      { r with
        paymentStatus := OrdPaymentStatus.paid, status := OrderStatus.processing,
        paymentId := some pid, updatedAt := now }
  | none =>
    updateBy Order.id orders id fun r =>
      { r with
        paymentStatus := OrdPaymentStatus.paid, status := OrderStatus.processing,
        updatedAt := now }

/-- The monetary snapshot of an order (with its identity, for pointwise comparison). -/
def moneyView (o : Order) : String × ℚ × ℚ × ℚ × ℚ × ℚ :=
  (o.id, o.subtotal, o.tax, o.shipping, o.discount, o.total)

/-! ### Order theorems -/

theorem moneyView_updateBy (orders : List Order) (id : String) (f : Order → Order)
    (hf : ∀ r, moneyView (f r) = moneyView r) :
    (updateBy Order.id orders id f).map moneyView = orders.map moneyView := by
  induction orders with
  | nil => rfl
  | cons a l ih =>
    simp only [updateBy, List.map_cons] at ih ⊢
    by_cases h : (Order.id a == id) = true
    · rw [if_pos h, hf, ih]
    · rw [if_neg h, ih]

/-- C2: updateOrder, updateOrderStatus, updatePaymentStatus,
updateShippingStatus, cancelOrder and markAsPaid all leave every order's
subtotal, tax, shipping, discount and total unchanged (the monetary
snapshot of the whole table, keyed by order id, is preserved). -/
theorem order_money_frame (orders : List Order) (id : String) (input : UpdateOrderInput)
    (st : OrderStatus) (ps : OrdPaymentStatus) (ss : ShippingStatus)
    (paymentId : Option String) (now : Nat) :
    (∀ orders', updateOrder orders id input now = some orders' →
      orders'.map moneyView = orders.map moneyView) ∧
    (updateOrderStatus orders id st now).map moneyView = orders.map moneyView ∧
    (updatePaymentStatus orders id ps now).map moneyView = orders.map moneyView ∧
    (updateShippingStatus orders id ss now).map moneyView = orders.map moneyView ∧
    (cancelOrder orders id now).map moneyView = orders.map moneyView ∧
    (markAsPaid orders id paymentId now).map moneyView = orders.map moneyView := by
  refine ⟨?_, ?_, ?_, ?_, ?_, ?_⟩
  · intro orders' h
    obtain ⟨o, _, rfl⟩ := Option.map_eq_some'.mp h
    apply moneyView_updateBy
    intro r
    rfl
  · apply moneyView_updateBy
    intro r
    rfl
  · apply moneyView_updateBy
    intro r
    rfl
  · apply moneyView_updateBy
    intro r
    rfl
  · apply moneyView_updateBy
    intro r
    rfl
  · cases paymentId with
    | some pid =>
      apply moneyView_updateBy
      intro r
      rfl
    | none =>
      apply moneyView_updateBy
      intro r
      rfl

def c2order : Order :=
  { id := "order_1", storeId := "store_1", orderNumber := "ORD-1", userId := none,
    email := "a@b.c", status := OrderStatus.pending, paymentStatus := OrdPaymentStatus.unpaid,
    shippingStatus := ShippingStatus.unshipped, subtotal := 100, tax := 8, shipping := 10,
    discount := 0, total := 118, currency := "USD", paymentMethod := none, paymentId := none,
    shippingAddress := none, billingAddress := none, notes := none, metadata := none,
    createdAt := 0, updatedAt := 0 }

def c2input : UpdateOrderInput :=
  { status := some OrderStatus.paid, paymentStatus := none, shippingStatus := none,
    notes := none, metadata := none }

def c2orders' : List Order := (updateOrder [c2order] "order_1" c2input 5).getD []

theorem order_money_frame_witness :
    updateOrder [c2order] "order_1" c2input 5 = some c2orders' ∧
    c2orders'.map moneyView = [c2order].map moneyView ∧
    (markAsPaid [c2order] "order_1" (some "pay_1") 5).map moneyView =
      [c2order].map moneyView := by
  have h := order_money_frame [c2order] "order_1" c2input
    OrderStatus.paid OrdPaymentStatus.unpaid ShippingStatus.unshipped (some "pay_1") 5
  have h1 : updateOrder [c2order] "order_1" c2input 5 = some c2orders' := rfl
  exact ⟨h1, h.1 c2orders' h1, h.2.2.2.2.2⟩

/-! ### Payment service (`src/src/services/payment-service.ts`, `PaymentService`) -/

inductive GatewayType where
  | stripe | paypal | square | custom
deriving DecidableEq

def gatewayTypeName : GatewayType → String
  | GatewayType.stripe => "stripe"
  | GatewayType.paypal => "paypal"
  | GatewayType.square => "square"
  | GatewayType.custom => "custom"

inductive PayStatus where
  | pending | processing | completed | failed | refunded
deriving DecidableEq

/-- A row of the `payments` table. -/
structure Payment where
  id : String
  orderId : String
  paymentMethodId : String
  amount : ℚ
  currency : String
  status : PayStatus
  transactionId : Option String
  errorMessage : Option String
  metadata : Option String
  createdAt : Nat
  updatedAt : Nat
deriving DecidableEq

inductive RefundStatus where
  | pending | completed | failed
deriving DecidableEq

/-- A row of the `refunds` table. -/
structure Refund where
  id : String
  orderId : String
  paymentId : Option String
  amount : ℚ
  reason : Option String
  status : RefundStatus
  transactionId : Option String
  createdAt : Nat
  updatedAt : Nat
deriving DecidableEq

/-- Argument of `PaymentGatewayHandler.process`. -/
structure GatewayProcessInput where
  amount : ℚ
  currency : String
  orderId : String
  metadata : Option String
deriving DecidableEq

/-- Argument of `PaymentGatewayHandler.refund`. -/
structure GatewayRefundInput where
  transactionId : String
  amount : ℚ
  currency : String
deriving DecidableEq

/-- A registered gateway: `process`/`refund` return the gateway transactionId
on success (`Except.ok`) or throw (`Except.error` with the error message). -/
structure PaymentGatewayHandler where
  process : GatewayProcessInput → Except String String
  refund : GatewayRefundInput → Except String String

/-- State seen by `PaymentService`: the in-memory gateway registry plus the
`payments` and `refunds` tables. -/
structure PaymentState where
  gateways : GatewayType → Option PaymentGatewayHandler
  payments : List Payment
  refunds : List Refund

/-- `PaymentService.registerGateway` (JavaScript `Map.set`: later wins). -/
def registerGateway (s : PaymentState) (t : GatewayType) (handler : PaymentGatewayHandler) :
    PaymentState :=
  { s with gateways := fun u => if u = t then some handler else s.gateways u }

/-- Input of `PaymentService.createPayment`. -/
structure CreatePaymentInput where
  orderId : String
  paymentMethodId : String
  amount : ℚ
  currency : Option String
  metadata : Option String
deriving DecidableEq

/-- The JavaScript `input.currency || 'USD'` fallback (empty string is falsy). -/
def currencyOrUSD (c : Option String) : String :=
  match c with
  | some t => if t = "" then "USD" else t
  | none => "USD"

/-- `PaymentService.createPayment`: inserts a Payment row in `pending` state. -/
def createPayment (s : PaymentState) (input : CreatePaymentInput) (freshId : String)
    (now : Nat) : PaymentState × Payment :=
  let payment : Payment :=
    { id := freshId, orderId := input.orderId, paymentMethodId := input.paymentMethodId,
      amount := input.amount, currency := currencyOrUSD input.currency,
      status := PayStatus.pending, transactionId := none, errorMessage := none,
      metadata := input.metadata, createdAt := now, updatedAt := now }
  ({ s with payments := s.payments ++ [payment] }, payment)

/-- `PaymentService.getPayment`. -/
def getPayment (s : PaymentState) (id : String) : Option Payment :=
  findBy Payment.id s.payments id

/-- `PaymentService.getRefund`. -/
def getRefund (s : PaymentState) (id : String) : Option Refund :=
  findBy Refund.id s.refunds id

/-- Input of `PaymentService.processPayment`. -/
structure ProcessPaymentInput where
  paymentMethodType : GatewayType
  amount : ℚ
  currency : String
  orderId : String
  metadata : Option String
deriving DecidableEq

/-- The pending row `processPayment` creates before any gateway call
(`paymentMethodId` is the empty string: "Will be set by gateway"). -/
def pendingPayment (input : ProcessPaymentInput) (freshId : String) (now : Nat) : Payment :=
  { id := freshId, orderId := input.orderId, paymentMethodId := "",
    amount := input.amount, currency := currencyOrUSD (some input.currency),
    status := PayStatus.pending, transactionId := none, errorMessage := none,
    metadata := input.metadata, createdAt := now, updatedAt := now }

/-- The gateway argument `processPayment` builds. -/
def processInputOf (input : ProcessPaymentInput) : GatewayProcessInput :=
  { amount := input.amount, currency := input.currency, orderId := input.orderId,
    metadata := input.metadata }

/-- `PaymentService.processPayment`: creates the pending Payment, resolves the
gateway by `paymentMethodType` (throwing when unregistered), invokes
`gateway.process`, and transitions the row to `completed` (recording the
transactionId) or `failed` (recording the error message, which is re-raised). -/
def processPayment (s : PaymentState) (input : ProcessPaymentInput) (freshId : String)
    (now : Nat) : PaymentState × Except String Payment :=
  let created := createPayment s
    { orderId := input.orderId, paymentMethodId := "", amount := input.amount,
      currency := some input.currency, metadata := input.metadata } freshId now
  let s₁ := created.1
  let payment := created.2
  match s₁.gateways input.paymentMethodType with
  | none =>
    (s₁, Except.error ("Payment gateway not registered: " ++
      gatewayTypeName input.paymentMethodType))
  | some gw =>
    match gw.process (processInputOf input) with
    | Except.ok tx =>
      ({ s₁ with
          payments := updateBy Payment.id s₁.payments payment.id
            (fun p => { p with
              status := PayStatus.completed, transactionId := some tx, updatedAt := now }) },
        Except.ok { payment with
          status := PayStatus.completed, transactionId := some tx, updatedAt := now })
    | Except.error e =>
      ({ s₁ with
          payments := updateBy Payment.id s₁.payments payment.id
            (fun p => { p with
              status := PayStatus.failed, errorMessage := some e, updatedAt := now }) },
        Except.error e)

/-- `PaymentService.createRefund`: inserts a Refund row in `pending` state. -/
def createRefund (s : PaymentState) (orderId paymentId : String) (amount : ℚ)
    (reason : Option String) (freshId : String) (now : Nat) : PaymentState × Refund :=
  let refund : Refund :=
    { id := freshId, orderId := orderId, paymentId := some paymentId, amount := amount,
      reason := normStr reason, status := RefundStatus.pending, transactionId := none,
      createdAt := now, updatedAt := now }
  ({ s with refunds := s.refunds ++ [refund] }, refund)

/-- The JavaScript `payment.transactionId || ''` fallback. -/
def strOrEmpty (s : Option String) : String :=
  match s with
  | some t => t
  | none => ""

/-- `PaymentService.processRefund`: loads the Refund, checks it has a truthy
paymentId, loads the Payment, resolves the gateway by the fixed key
`'stripe'`, and invokes `gateway.refund` with `payment.transactionId || ''`;
on success the Refund becomes `completed` with the gateway transactionId, on
failure it becomes `failed` and the error is re-raised.  Note there is no
check that the Payment has a transactionId. -/
def processRefund (s : PaymentState) (refundId : String) (now : Nat) :
    PaymentState × Except String Refund :=
  match getRefund s refundId with
  | none => (s, Except.error ("Refund not found: " ++ refundId))
  | some refund =>
    match refund.paymentId with
    | none => (s, Except.error "Cannot refund payment without payment ID")
    | some pid =>
      if pid = "" then (s, Except.error "Cannot refund payment without payment ID")
      else
        match getPayment s pid with
        | none => (s, Except.error ("Payment not found: " ++ pid))
        | some payment =>
          match s.gateways GatewayType.stripe with
          | none => (s, Except.error "Payment gateway not available for refunds")
          | some gw =>
            match gw.refund
              { transactionId := strOrEmpty payment.transactionId,
                amount := refund.amount, currency := payment.currency } with
            | Except.ok tx =>
              ({ s with
                  refunds := updateBy Refund.id s.refunds refundId
                    (fun r => { r with
                      status := RefundStatus.completed,
                      transactionId := some tx, updatedAt := now }) },
                Except.ok { refund with
                  status := RefundStatus.completed,
                  transactionId := some tx, updatedAt := now })
            | Except.error e =>
              ({ s with
                  refunds := updateBy Refund.id s.refunds refundId
                    (fun r => { r with status := RefundStatus.failed, updatedAt := now }) },
                Except.error e)

/-! ### Payment theorems -/

theorem updateBy_singleton_matching {α : Type} (key : α → String) (a : α) (id : String)
    (f : α → α) (h : key a = id) : updateBy key [a] id f = [f a] := by
  simp [updateBy, h]

theorem updateBy_append_fresh {α : Type} (key : α → String) (l : List α) (a : α) (id : String)
    (f : α → α) (hFresh : ∀ x ∈ l, key x ≠ id) (ha : key a = id) :
    updateBy key (l ++ [a]) id f = l ++ [f a] := by
  rw [updateBy_append, updateBy_eq_of_not_mem key l id f hFresh,
    updateBy_singleton_matching key a id f ha]

/-- C3: with a registered gateway, processPayment first inserts the pending
row; a successful gateway call transitions that row to completed with the
gateway transactionId and returns the payment, while a throwing gateway call
transitions it to failed with the error message recorded and re-raises the
same error — in both outcomes the attempt row exists in the table. -/
theorem processPayment_records_and_surfaces
    (s : PaymentState) (input : ProcessPaymentInput) (freshId : String) (now : Nat)
    (gw : PaymentGatewayHandler)
    (hgw : s.gateways input.paymentMethodType = some gw)
    (hFresh : ∀ p ∈ s.payments, p.id ≠ freshId) :
    (∀ tx, gw.process (processInputOf input) = Except.ok tx →
      processPayment s input freshId now =
        ({ s with payments := s.payments ++
            [{ pendingPayment input freshId now with
               status := PayStatus.completed, transactionId := some tx, updatedAt := now }] },
         Except.ok { pendingPayment input freshId now with
           status := PayStatus.completed, transactionId := some tx, updatedAt := now })) ∧
    (∀ e, gw.process (processInputOf input) = Except.error e →
      processPayment s input freshId now =
        ({ s with payments := s.payments ++
            [{ pendingPayment input freshId now with
               status := PayStatus.failed, errorMessage := some e, updatedAt := now }] },
         Except.error e)) := by
  constructor
  · intro tx htx
    have h1 : processPayment s input freshId now =
        ({ s with
            payments := updateBy Payment.id (s.payments ++ [pendingPayment input freshId now])
              freshId (fun p => { p with
                status := PayStatus.completed, transactionId := some tx, updatedAt := now }) },
          Except.ok { pendingPayment input freshId now with
            status := PayStatus.completed, transactionId := some tx, updatedAt := now }) := by
      unfold processPayment
      dsimp only [createPayment]
      rw [hgw]
      dsimp only
      rw [htx]
      rfl
    rw [updateBy_append_fresh Payment.id s.payments (pendingPayment input freshId now)
      freshId _ hFresh rfl] at h1
    exact h1
  · intro e he
    have h1 : processPayment s input freshId now =
        ({ s with
            payments := updateBy Payment.id (s.payments ++ [pendingPayment input freshId now])
              freshId (fun p => { p with
                status := PayStatus.failed, errorMessage := some e, updatedAt := now }) },
          Except.error e) := by
      unfold processPayment
      dsimp only [createPayment]
      rw [hgw]
      dsimp only
      rw [he]
      rfl
    rw [updateBy_append_fresh Payment.id s.payments (pendingPayment input freshId now)
      freshId _ hFresh rfl] at h1
    exact h1

/-- C5: processPayment with an unregistered gateway type inserts exactly one
pending Payment row and then throws the gateway-not-registered error before
the try/catch update block, so the row is never transitioned. -/
theorem processPayment_unregistered
    (s : PaymentState) (input : ProcessPaymentInput) (freshId : String) (now : Nat)
    (hgw : s.gateways input.paymentMethodType = none) :
    processPayment s input freshId now =
      ({ s with payments := s.payments ++ [pendingPayment input freshId now] },
       Except.error ("Payment gateway not registered: " ++
         gatewayTypeName input.paymentMethodType)) ∧
    (pendingPayment input freshId now).status = PayStatus.pending := by
  constructor
  · unfold processPayment
    dsimp only [createPayment]
    rw [hgw]
    rfl
  · rfl

def c3gw : PaymentGatewayHandler :=
  { process := fun _ => Except.ok "tx_1", refund := fun _ => Except.ok "rtx_1" }

def c3state : PaymentState :=
  { gateways := fun t => if t = GatewayType.stripe then some c3gw else none,
    payments := [], refunds := [] }

def c3input : ProcessPaymentInput :=
  { paymentMethodType := GatewayType.stripe, amount := 50, currency := "USD",
    orderId := "order_1", metadata := none }

theorem processPayment_records_witness :
    processPayment c3state c3input "pay_1" 9 =
      ({ c3state with payments := c3state.payments ++
          [{ pendingPayment c3input "pay_1" 9 with
             status := PayStatus.completed, transactionId := some "tx_1", updatedAt := 9 }] },
       Except.ok { pendingPayment c3input "pay_1" 9 with
         status := PayStatus.completed, transactionId := some "tx_1", updatedAt := 9 }) :=
  (processPayment_records_and_surfaces c3state c3input "pay_1" 9 c3gw rfl
    (by simp [c3state])).1 "tx_1" rfl

def c5state : PaymentState :=
  { gateways := fun _ => none, payments := [], refunds := [] }

theorem processPayment_unregistered_witness :
    processPayment c5state c3input "pay_2" 9 =
      ({ c5state with payments := c5state.payments ++ [pendingPayment c3input "pay_2" 9] },
       Except.error ("Payment gateway not registered: " ++
         gatewayTypeName c3input.paymentMethodType)) ∧
    (pendingPayment c3input "pay_2" 9).status = PayStatus.pending :=
  processPayment_unregistered c5state c3input "pay_2" 9 rfl

def c7gw : PaymentGatewayHandler :=
  { process := fun _ => Except.ok "tx_9", refund := fun _ => Except.ok "rtx_1" }

def c7payment : Payment :=
  { id := "pay_1", orderId := "order_1", paymentMethodId := "", amount := 10,
    currency := "USD", status := PayStatus.completed, transactionId := none,
    errorMessage := none, metadata := none, createdAt := 0, updatedAt := 0 }

def c7refund : Refund :=
  { id := "ref_1", orderId := "order_1", paymentId := some "pay_1", amount := 10,
    reason := none, status := RefundStatus.pending, transactionId := none,
    createdAt := 0, updatedAt := 0 }

def c7state : PaymentState :=
  { gateways := fun t => if t = GatewayType.stripe then some c7gw else none,
    payments := [c7payment], refunds := [c7refund] }

/-- C7 counterexample: the refund and its originating payment both exist, but
the payment has no transactionId; the claim says processRefund must then
fail with a NotFound-style error, yet the code performs no such check — it
calls the gateway with an empty transactionId and here completes the refund
successfully. -/
theorem processRefund_no_txid_counterexample :
    (getPayment c7state "pay_1").map Payment.transactionId = some none ∧
    (processRefund c7state "ref_1" 9).2 =
      Except.ok { c7refund with
        status := RefundStatus.completed, transactionId := some "rtx_1", updatedAt := 9 } :=
  ⟨rfl, rfl⟩

/-- C7 amended: processRefund fails when the Refund is missing, when it has
no (truthy) paymentId, or when the originating Payment is missing; it does
NOT check the payment's transactionId (it passes `transactionId || ''` to
the gateway); the gateway is resolved by the fixed key stripe; on gateway
success the Refund becomes completed with the gateway's transactionId, and
on gateway failure it becomes failed and the same error is re-raised. -/
theorem processRefund_spec (s : PaymentState) (refundId : String) (now : Nat) :
    (getRefund s refundId = none →
      processRefund s refundId now = (s, Except.error ("Refund not found: " ++ refundId))) ∧
    (∀ refund, getRefund s refundId = some refund →
      (refund.paymentId = none ∨ refund.paymentId = some "") →
      processRefund s refundId now =
        (s, Except.error "Cannot refund payment without payment ID")) ∧
    (∀ refund pid, getRefund s refundId = some refund → refund.paymentId = some pid →
      pid ≠ "" → getPayment s pid = none →
      processRefund s refundId now = (s, Except.error ("Payment not found: " ++ pid))) ∧
    (∀ refund pid payment gw tx, getRefund s refundId = some refund →
      refund.paymentId = some pid → pid ≠ "" → getPayment s pid = some payment →
      s.gateways GatewayType.stripe = some gw →
      gw.refund
          { transactionId := strOrEmpty payment.transactionId,
            amount := refund.amount, currency := payment.currency } = Except.ok tx →
      processRefund s refundId now =
        ({ s with
            refunds := updateBy Refund.id s.refunds refundId (fun r => { r with
              status := RefundStatus.completed, transactionId := some tx, updatedAt := now }) },
          Except.ok { refund with
            status := RefundStatus.completed, transactionId := some tx, updatedAt := now })) ∧
    (∀ refund pid payment gw e, getRefund s refundId = some refund →
      refund.paymentId = some pid → pid ≠ "" → getPayment s pid = some payment →
      s.gateways GatewayType.stripe = some gw →
      gw.refund
          { transactionId := strOrEmpty payment.transactionId,
            amount := refund.amount, currency := payment.currency } = Except.error e →
      processRefund s refundId now =
        ({ s with
            refunds := updateBy Refund.id s.refunds refundId (fun r => { r with
              status := RefundStatus.failed, updatedAt := now }) },
          Except.error e)) := by
  refine ⟨?_, ?_, ?_, ?_, ?_⟩
  · intro h
    unfold processRefund
    rw [h]
  · intro refund hr hpid
    unfold processRefund
    rw [hr]
    dsimp only
    cases hpid with
    | inl h => rw [h]
    | inr h =>
      rw [h]
      dsimp only
      rw [if_pos rfl]
  · intro refund pid hr hpid hpid' hp
    unfold processRefund
    rw [hr]
    dsimp only
    rw [hpid]
    dsimp only
    rw [if_neg hpid', hp]
  · intro refund pid payment gw tx hr hpid hpid' hp hgw htx
    unfold processRefund
    rw [hr]
    dsimp only
    rw [hpid]
    dsimp only
    rw [if_neg hpid', hp]
    dsimp only
    rw [hgw]
    dsimp only
    rw [htx]
  · intro refund pid payment gw e hr hpid hpid' hp hgw he
    unfold processRefund
    rw [hr]
    dsimp only
    rw [hpid]
    dsimp only
    rw [if_neg hpid', hp]
    dsimp only
    rw [hgw]
    dsimp only
    rw [he]

theorem processRefund_spec_witness :
    processRefund c7state "ref_1" 9 =
      ({ c7state with
          refunds := updateBy Refund.id c7state.refunds "ref_1" (fun r => { r with
            status := RefundStatus.completed, transactionId := some "rtx_1", updatedAt := 9 }) },
        Except.ok { c7refund with
          status := RefundStatus.completed, transactionId := some "rtx_1", updatedAt := 9 }) :=
  (processRefund_spec c7state "ref_1" 9).2.2.2.1 c7refund "pay_1" c7payment c7gw "rtx_1"
    rfl rfl (by decide) rfl rfl rfl

def c9payment : Payment :=
  { id := "pay_2", orderId := "order_2", paymentMethodId := "", amount := 25,
    currency := "USD", status := PayStatus.completed, transactionId := some "tx_2",
    errorMessage := none, metadata := none, createdAt := 0, updatedAt := 0 }

def c9refund : Refund :=
  { id := "ref_2", orderId := "order_2", paymentId := some "pay_2", amount := 25,
    reason := none, status := RefundStatus.pending, transactionId := none,
    createdAt := 0, updatedAt := 0 }

/-- A state where the paypal gateway (the type of the original payment) is
registered but no stripe gateway is. -/
def c9state : PaymentState :=
  { gateways := fun t => if t = GatewayType.paypal then some c7gw else none,
    payments := [c9payment], refunds := [c9refund] }

/-- C9: processRefund resolves the gateway by the fixed key stripe, not by
the payment method type of the original payment: whenever no stripe gateway
is registered, a processRefund call that reaches the gateway step fails with
the gateway-not-available error and leaves the state unchanged, regardless
of which other gateway types are registered. -/
theorem processRefund_fixed_stripe
    (s : PaymentState) (refundId : String) (now : Nat) (refund : Refund) (pid : String)
    (payment : Payment)
    (hr : getRefund s refundId = some refund)
    (hpid : refund.paymentId = some pid) (hpid' : pid ≠ "")
    (hp : getPayment s pid = some payment)
    (hstripe : s.gateways GatewayType.stripe = none) :
    processRefund s refundId now =
      (s, Except.error "Payment gateway not available for refunds") := by
  unfold processRefund
  rw [hr]
  dsimp only
  rw [hpid]
  dsimp only
  rw [if_neg hpid', hp]
  dsimp only
  rw [hstripe]

theorem processRefund_fixed_stripe_witness :
    processRefund c9state "ref_2" 9 =
      (c9state, Except.error "Payment gateway not available for refunds") :=
  processRefund_fixed_stripe c9state "ref_2" 9 c9refund "pay_2" c9payment
    rfl rfl (by decide) rfl rfl

/-! ### Digital download service (`src/src/services/digital-download-service.ts`) -/

/-- A row of the `digital_downloads` table. -/
structure DigitalDownload where
  id : String
  productId : String
  fileName : String
  filePath : String
  fileSize : Option Nat
  mimeType : Option String
  r2Key : String
  downloadLimit : Option Nat
  expirationDays : Option Nat
  createdAt : Nat
deriving DecidableEq

/-- A row of the `download_links` table. -/
structure DownloadLink where
  id : String
  orderItemId : String
  digitalDownloadId : String
  token : String
  downloadCount : Nat
  maxDownloads : Option Nat
  expiresAt : Option Nat
  lastAccessedAt : Option Nat
  createdAt : Nat
deriving DecidableEq

/-- State seen by `DigitalDownloadService`: the two tables plus the R2 object
store (key ↦ object body). -/
structure DownloadState where
  downloads : List DigitalDownload
  links : List DownloadLink
  r2 : List (String × String)
deriving DecidableEq

/-- The JavaScript `n || null` bind applied to an optional number: 0 is falsy
and is stored as NULL. -/
def normNat (n : Option Nat) : Option Nat :=
  match n with
  | some 0 => none
  | x => x

/-- The in-memory link object `createDownloadLink` builds: `expiresAt` is set
only when `expirationDays` is truthy (`expirationDays ? now + expirationDays *
24 * 60 * 60 : undefined`), so 0 days means no expiry. -/
def newDownloadLink (orderItemId digitalDownloadId : String)
    (maxDownloads expirationDays : Option Nat) (freshId token : String) (now : Nat) :
    DownloadLink :=
  { id := freshId, orderItemId := orderItemId, digitalDownloadId := digitalDownloadId,
    token := token, downloadCount := 0, maxDownloads := maxDownloads,
    expiresAt :=
      match expirationDays with
      | some d => if d = 0 then none else some (now + d * 24 * 60 * 60)
      | none => none,
    lastAccessedAt := none, createdAt := now }

/-- The row the INSERT persists: `max_downloads` and `expires_at` are bound
as `link.maxDownloads || null` and `link.expiresAt || null`. -/
def storedDownloadLink (orderItemId digitalDownloadId : String)
    (maxDownloads expirationDays : Option Nat) (freshId token : String) (now : Nat) :
    DownloadLink :=
  { newDownloadLink orderItemId digitalDownloadId maxDownloads expirationDays freshId token now with
    maxDownloads := normNat maxDownloads,
    expiresAt := normNat
      (newDownloadLink orderItemId digitalDownloadId maxDownloads expirationDays
        freshId token now).expiresAt }

/-- `DigitalDownloadService.createDownloadLink` (token generation is a
caller-supplied fresh string here). -/
def createDownloadLink (s : DownloadState) (orderItemId digitalDownloadId : String)
    (maxDownloads expirationDays : Option Nat) (freshId token : String) (now : Nat) :
    DownloadState × DownloadLink :=
  ({ s with links := s.links ++
      [storedDownloadLink orderItemId digitalDownloadId maxDownloads expirationDays
        freshId token now] },
    newDownloadLink orderItemId digitalDownloadId maxDownloads expirationDays freshId token now)

/-- The token lookup of `getDownloadLinkByToken`. -/
def findLinkByToken (s : DownloadState) (token : String) : Option DownloadLink :=
  findBy DownloadLink.token s.links token

/-- The expiry check `link.expiresAt && link.expiresAt < now` (JavaScript
truthiness: a missing or zero `expiresAt` never counts as expired). -/
def linkExpiredCheck (l : DownloadLink) (now : Nat) : Bool :=
  match l.expiresAt with
  | some e => decide (0 < e) && decide (e < now)
  | none => false

/-- The limit check `link.maxDownloads && link.downloadCount >= link.maxDownloads`. -/
def linkLimitCheck (l : DownloadLink) : Bool :=
  match l.maxDownloads with
  | some m => decide (0 < m) && decide (m ≤ l.downloadCount)
  | none => false

/-- `DigitalDownloadService.getDownloadLinkByToken`: `ok none` models the
`return null` for an unknown token; expired and exhausted links throw. -/
def getDownloadLinkByToken (s : DownloadState) (token : String) (now : Nat) :
    Except String (Option DownloadLink) :=
  match findLinkByToken s token with
  | none => Except.ok none
  | some l =>
    if linkExpiredCheck l now then Except.error "Download link has expired"
    else if linkLimitCheck l then Except.error "Download limit reached"
    else Except.ok (some l)

/-- `DigitalDownloadService.getDigitalDownload`. -/
def getDigitalDownload (s : DownloadState) (id : String) : Option DigitalDownload :=
  findBy DigitalDownload.id s.downloads id

/-- `DigitalDownloadService.recordDownload`: `download_count = download_count + 1`. -/
def recordDownload (s : DownloadState) (linkId : String) (now : Nat) : DownloadState :=
  { s with
    links := updateBy DownloadLink.id s.links linkId
      (fun l => { l with downloadCount := l.downloadCount + 1, lastAccessedAt := some now }) }

/-- The JavaScript `download.mimeType || 'application/octet-stream'` fallback. -/
def mimeOrDefault (m : Option String) : String :=
  match m with
  | some t => if t = "" then "application/octet-stream" else t
  | none => "application/octet-stream"

/-- Result of `getDownloadFile` (the R2 body stream modelled as a string). -/
structure DownloadFileResult where
  file : String
  fileName : String
  mimeType : String
deriving DecidableEq

/-- `DigitalDownloadService.getDownloadFile`: resolves the link (applying the
expiry/limit checks), loads the download row, increments the counter via
`recordDownload`, then fetches the object from R2 (failing with NotFound if
the object is missing even though the counter was already incremented). -/
def getDownloadFile (s : DownloadState) (token : String) (now : Nat) :
    DownloadState × Except String DownloadFileResult :=
  match getDownloadLinkByToken s token now with
  | Except.error e => (s, Except.error e)
  | Except.ok none => (s, Except.error "Invalid download link")
  | Except.ok (some link) =>
    match getDigitalDownload s link.digitalDownloadId with
    | none => (s, Except.error "Digital download not found")
    | some download =>
      let s₁ := recordDownload s link.id now
      match findBy Prod.fst s₁.r2 download.r2Key with
      | none => (s₁, Except.error "File not found in storage")
      | some obj =>
        (s₁, Except.ok
          { file := obj.2, fileName := download.fileName,
            mimeType := mimeOrDefault download.mimeType })

/-- `DigitalDownloadService.cleanupExpiredLinks`:
`DELETE FROM download_links WHERE expires_at IS NOT NULL AND expires_at < ?`. -/
def cleanupExpiredLinks (s : DownloadState) (now : Nat) : DownloadState :=
  { s with
    links := s.links.filter (fun l =>
      match l.expiresAt with
      | some e => decide (¬ e < now)
      | none => true) }

/-- A sequence of `getDownloadFile` attempts (token and time each). -/
def runDownloadFiles (s : DownloadState) : List (String × Nat) → DownloadState
  | [] => s
  | a :: rest => runDownloadFiles (getDownloadFile s a.1 a.2).1 rest

/-- The per-link invariant of the claim: the count never exceeds the limit. -/
def linkWithinLimit (l : DownloadLink) : Bool :=
  match l.maxDownloads with
  | some m => decide (l.downloadCount ≤ m)
  | none => true

/-- Well-formedness of the link table as the service itself creates it:
distinct ids, no zero limit (`maxDownloads || null` stores 0 as NULL), and
every count within its limit. -/
def linksWF (s : DownloadState) : Prop :=
  (s.links.map DownloadLink.id).Nodup ∧
  (∀ l ∈ s.links, l.maxDownloads ≠ some 0) ∧
  (∀ l ∈ s.links, linkWithinLimit l = true)

/-! ### Download theorems -/

theorem mem_updateBy {α : Type} (key : α → String) (l : List α) (id : String)
    (f : α → α) (y : α) (hy : y ∈ updateBy key l id f) :
    ∃ x ∈ l, y = x ∨ (key x = id ∧ y = f x) := by
  obtain ⟨x, hx, hgx⟩ := List.mem_map.mp hy
  by_cases h : (key x == id) = true
  · exact ⟨x, hx, Or.inr ⟨by simpa using h, by rw [← hgx]; simp [h]⟩⟩
  · exact ⟨x, hx, Or.inl (by rw [← hgx]; simp [h])⟩

theorem map_key_updateBy {α : Type} (key : α → String) (l : List α) (id : String)
    (f : α → α) (hf : ∀ x, key (f x) = key x) :
    (updateBy key l id f).map key = l.map key := by
  induction l with
  | nil => rfl
  | cons a l ih =>
    simp only [updateBy, List.map_cons] at ih ⊢
    by_cases h : (key a == id) = true
    · rw [if_pos h, hf, ih]
    · rw [if_neg h, ih]

theorem getDownloadLinkByToken_ok_some (s : DownloadState) (token : String) (now : Nat)
    (link : DownloadLink) (h : getDownloadLinkByToken s token now = Except.ok (some link)) :
    findLinkByToken s token = some link ∧ linkExpiredCheck link now = false ∧
      linkLimitCheck link = false := by
  unfold getDownloadLinkByToken at h
  cases hfind : findLinkByToken s token with
  | none =>
    rw [hfind] at h
    exact absurd h (by simp)
  | some l =>
    rw [hfind] at h
    dsimp only at h
    by_cases hexp : linkExpiredCheck l now = true
    · rw [if_pos hexp] at h
      exact absurd h (by simp)
    · rw [if_neg hexp] at h
      by_cases hlim : linkLimitCheck l = true
      · rw [if_pos hlim] at h
        exact absurd h (by simp)
      · rw [if_neg hlim] at h
        obtain rfl := Option.some.inj (Except.ok.inj h)
        exact ⟨rfl, Bool.not_eq_true _ ▸ hexp, Bool.not_eq_true _ ▸ hlim⟩

theorem recordDownload_preserves (s : DownloadState) (link : DownloadLink) (now : Nat)
    (h : linksWF s) (hmem : link ∈ s.links) (hlim : linkLimitCheck link = false) :
    linksWF (recordDownload s link.id now) := by
  obtain ⟨hnd, hz, hwf⟩ := h
  refine ⟨?_, ?_, ?_⟩
  · have heq := map_key_updateBy DownloadLink.id s.links link.id
      (fun l => { l with downloadCount := l.downloadCount + 1, lastAccessedAt := some now })
      (fun _ => rfl)
    unfold recordDownload
    dsimp only
    rw [heq]
    exact hnd
  · intro l' hl'
    obtain ⟨x, hx, hcase⟩ := mem_updateBy DownloadLink.id s.links link.id _ l' hl'
    rcases hcase with h' | ⟨_, h'⟩
    · rw [h']; exact hz x hx
    · rw [h']; exact hz x hx
  · intro l' hl'
    obtain ⟨x, hx, hcase⟩ := mem_updateBy DownloadLink.id s.links link.id _ l' hl'
    rcases hcase with h' | ⟨hid, h'⟩
    · rw [h']; exact hwf x hx
    · obtain rfl : x = link := List.inj_on_of_nodup_map hnd hx hmem hid
      rw [h']
      cases hm : x.maxDownloads with
      | none => simp [linkWithinLimit, hm]
      | some m =>
        have hm0 : m ≠ 0 := by
          intro h0
          exact hz x hx (by rw [hm, h0])
        have hcount : x.downloadCount < m := by
          rw [linkLimitCheck, hm] at hlim
          simp only [Bool.and_eq_false_iff, decide_eq_false_iff_not, not_lt, not_le] at hlim
          rcases hlim with h1 | h2
          · omega
          · exact h2
        simp only [linkWithinLimit, hm, decide_eq_true_eq]
        omega

theorem getDownloadFile_preserves (s : DownloadState) (token : String) (now : Nat)
    (h : linksWF s) : linksWF (getDownloadFile s token now).1 := by
  unfold getDownloadFile
  cases hres : getDownloadLinkByToken s token now with
  | error e => exact h
  | ok olink =>
    cases olink with
    | none => exact h
    | some link =>
      obtain ⟨hfind, _, hlim⟩ := getDownloadLinkByToken_ok_some s token now link hres
      have hmem : link ∈ s.links :=
        List.mem_of_find?_eq_some (p := fun l => DownloadLink.token l == token) hfind
      dsimp only
      cases hdl : getDigitalDownload s link.digitalDownloadId with
      | none => exact h
      | some download =>
        dsimp only
        cases hr2 : findBy Prod.fst (recordDownload s link.id now).r2 download.r2Key with
        | none => exact recordDownload_preserves s link now h hmem hlim
        | some obj => exact recordDownload_preserves s link now h hmem hlim

theorem runDownloadFiles_WF (attempts : List (String × Nat)) (s : DownloadState)
    (h : linksWF s) : linksWF (runDownloadFiles s attempts) := by
  induction attempts generalizing s with
  | nil => exact h
  | cons a rest ih => exact ih _ (getDownloadFile_preserves s a.1 a.2 h)

/-- C4: getDownloadLinkByToken returns `null` for an unknown token, fails
with the expired error when expiresAt is set and now is past it (checked
first), fails with the limit error when maxDownloads is set and the count
has reached it, and otherwise returns the link; getDownloadFile propagates
those failures without touching the state, and under sequential execution
every link's downloadCount stays within its maxDownloads. -/
theorem download_token_guards (s : DownloadState) (token : String) (now : Nat) :
    (findLinkByToken s token = none → getDownloadLinkByToken s token now = Except.ok none) ∧
    (∀ l e, findLinkByToken s token = some l → l.expiresAt = some e → 0 < e → e < now →
      getDownloadLinkByToken s token now = Except.error "Download link has expired" ∧
      getDownloadFile s token now = (s, Except.error "Download link has expired")) ∧
    (∀ l m, findLinkByToken s token = some l → linkExpiredCheck l now = false →
      l.maxDownloads = some m → 0 < m → m ≤ l.downloadCount →
      getDownloadLinkByToken s token now = Except.error "Download limit reached" ∧
      getDownloadFile s token now = (s, Except.error "Download limit reached")) ∧
    (∀ l, findLinkByToken s token = some l → linkExpiredCheck l now = false →
      linkLimitCheck l = false → getDownloadLinkByToken s token now = Except.ok (some l)) ∧
    (linksWF s → ∀ attempts : List (String × Nat),
      ∀ l ∈ (runDownloadFiles s attempts).links, linkWithinLimit l = true) := by
  refine ⟨?_, ?_, ?_, ?_, ?_⟩
  · intro h
    unfold getDownloadLinkByToken
    rw [h]
  · intro l e hfind he h0e henow
    have hexp : linkExpiredCheck l now = true := by
      simp only [linkExpiredCheck, he, Bool.and_eq_true, decide_eq_true_eq]
      exact ⟨h0e, henow⟩
    have hlook : getDownloadLinkByToken s token now = Except.error "Download link has expired" := by
      unfold getDownloadLinkByToken
      rw [hfind]
      dsimp only
      rw [if_pos hexp]
    refine ⟨hlook, ?_⟩
    unfold getDownloadFile
    rw [hlook]
  · intro l m hfind hexp hm h0m hcount
    have hlim : linkLimitCheck l = true := by
      simp only [linkLimitCheck, hm, Bool.and_eq_true, decide_eq_true_eq]
      exact ⟨h0m, hcount⟩
    have hlook : getDownloadLinkByToken s token now = Except.error "Download limit reached" := by
      unfold getDownloadLinkByToken
      rw [hfind]
      dsimp only
      rw [if_neg (by rw [hexp]; simp), if_pos hlim]
    refine ⟨hlook, ?_⟩
    unfold getDownloadFile
    rw [hlook]
  · intro l hfind hexp hlim
    unfold getDownloadLinkByToken
    rw [hfind]
    dsimp only
    rw [if_neg (by rw [hexp]; simp), if_neg (by rw [hlim]; simp)]
  · intro hWF attempts
    exact (runDownloadFiles_WF attempts s hWF).2.2

def c4link : DownloadLink :=
  { id := "link_8", orderItemId := "oi_8", digitalDownloadId := "dl_8", token := "tok_8",
    downloadCount := 0, maxDownloads := some 2, expiresAt := none, lastAccessedAt := none,
    createdAt := 0 }

def c4download : DigitalDownload :=
  { id := "dl_8", productId := "prod_8", fileName := "f.pdf", filePath := "/f.pdf",
    fileSize := some 10, mimeType := some "application/pdf", r2Key := "digital-downloads/dl_8/f.pdf",
    downloadLimit := some 2, expirationDays := none, createdAt := 0 }

def c4state : DownloadState :=
  { downloads := [c4download], links := [c4link],
    r2 := [("digital-downloads/dl_8/f.pdf", "bytes")] }

/-- The link row after one successful download against `c4state`. -/
def c4bumped : DownloadLink :=
  { c4link with downloadCount := 1, lastAccessedAt := some 60 }

theorem download_token_guards_witness : linkWithinLimit c4bumped = true :=
  (download_token_guards c4state "tok_8" 60).2.2.2.2 ⟨by decide, by decide, by decide⟩
    [("tok_8", 60)] c4bumped (by decide)

def c6state : DownloadState := { downloads := [], links := [], r2 := [] }

def c6link : DownloadLink :=
  (createDownloadLink c6state "oi_1" "dl_1" none (some 0) "link_1" "tok_1" 1000).2

/-- C6 counterexample: with expirationDays = 0 the created link has no
expiresAt at all (JavaScript `expirationDays ? ... : undefined` treats 0 as
falsy), not expiresAt = creation time 1000, and a lookup far past the
creation time returns the link instead of failing with the expired error. -/
theorem createDownloadLink_zero_days_counterexample :
    c6link.expiresAt = none ∧
    getDownloadLinkByToken
        (createDownloadLink c6state "oi_1" "dl_1" none (some 0) "link_1" "tok_1" 1000).1
        "tok_1" 999999 =
      Except.ok (some c6link) :=
  ⟨rfl, rfl⟩

/-- C6 amended: createDownloadLink with expirationDays = 0 treats the zero as
"no expiration": both the returned link and the stored row have no expiresAt,
and (as long as no existing link already carries the token) a later
getDownloadLinkByToken for that token never fails with the expired error at
any time — it returns the stored link until the download limit is reached. -/
theorem createDownloadLink_zero_days (s : DownloadState)
    (orderItemId digitalDownloadId freshId token : String) (maxDownloads : Option Nat)
    (now now' : Nat)
    (hTok : ∀ l ∈ s.links, l.token ≠ token) :
    (createDownloadLink s orderItemId digitalDownloadId maxDownloads (some 0)
      freshId token now).2.expiresAt = none ∧
    (storedDownloadLink orderItemId digitalDownloadId maxDownloads (some 0)
      freshId token now).expiresAt = none ∧
    getDownloadLinkByToken
        (createDownloadLink s orderItemId digitalDownloadId maxDownloads (some 0)
          freshId token now).1 token now' ≠
      Except.error "Download link has expired" := by
  refine ⟨rfl, rfl, ?_⟩
  have hfind : findLinkByToken
      (createDownloadLink s orderItemId digitalDownloadId maxDownloads (some 0)
        freshId token now).1 token =
      some (storedDownloadLink orderItemId digitalDownloadId maxDownloads (some 0)
        freshId token now) := by
    show findBy DownloadLink.token
      (s.links ++ [storedDownloadLink orderItemId digitalDownloadId maxDownloads (some 0)
        freshId token now]) token = _
    rw [findBy_append_right DownloadLink.token s.links _ token hTok]
    show List.find? (fun l => DownloadLink.token l == token) [_] = _
    rw [List.find?_cons_of_pos (p := fun l => DownloadLink.token l == token) _
      (by simp [storedDownloadLink, newDownloadLink])]
  have hexp : linkExpiredCheck
      (storedDownloadLink orderItemId digitalDownloadId maxDownloads (some 0)
        freshId token now) now' = false := rfl
  unfold getDownloadLinkByToken
  rw [hfind]
  dsimp only
  rw [if_neg (by rw [hexp]; simp)]
  by_cases hlim : linkLimitCheck
      (storedDownloadLink orderItemId digitalDownloadId maxDownloads (some 0)
        freshId token now) = true
  · rw [if_pos hlim]
    simp
  · rw [if_neg hlim]
    simp

theorem createDownloadLink_zero_days_witness :
    (createDownloadLink c6state "oi_2" "dl_2" (some 3) (some 0)
      "link_2" "tok_2" 1000).2.expiresAt = none ∧
    (storedDownloadLink "oi_2" "dl_2" (some 3) (some 0) "link_2" "tok_2" 1000).expiresAt = none ∧
    getDownloadLinkByToken
        (createDownloadLink c6state "oi_2" "dl_2" (some 3) (some 0)
          "link_2" "tok_2" 1000).1 "tok_2" 999999 ≠
      Except.error "Download link has expired" :=
  createDownloadLink_zero_days c6state "oi_2" "dl_2" "link_2" "tok_2" (some 3) 1000 999999
    (by simp [c6state])

/-! ### Product service (`src/src/services/product-service.ts`, `ProductService`) -/

/-- A row of the `products` table, restricted to the fields the stock
operations touch. -/
structure Product where
  id : String
  storeId : String
  name : String
  price : ℚ
  stockQuantity : ℚ
  isActive : Bool
  updatedAt : Nat
deriving DecidableEq

/-- `ProductService.updateStock`: `UPDATE products SET stock_quantity = ?`. -/
def updateStock (products : List Product) (id : String) (quantity : ℚ) (now : Nat) :
    List Product :=
  updateBy Product.id products id
    (fun p => { p with stockQuantity := quantity, updatedAt := now })

/-- `ProductService.decreaseStock`:
`UPDATE products SET stock_quantity = MAX(0, stock_quantity - ?)`. -/
def decreaseStock (products : List Product) (id : String) (quantity : ℚ) (now : Nat) :
    List Product :=
  updateBy Product.id products id
    (fun p => { p with stockQuantity := max 0 (p.stockQuantity - quantity), updatedAt := now })

/-- A sequence of `decreaseStock` calls (product id, quantity, time each). -/
def runDecreases (products : List Product) : List (String × ℚ × Nat) → List Product
  | [] => products
  | a :: rest => runDecreases (decreaseStock products a.1 a.2.1 a.2.2) rest

/-! ### Product theorems -/

theorem decreaseStock_nonneg (products : List Product) (id : String) (q : ℚ) (now : Nat)
    (h : ∀ p ∈ products, 0 ≤ p.stockQuantity) :
    ∀ p ∈ decreaseStock products id q now, 0 ≤ p.stockQuantity := by
  intro p hp
  obtain ⟨x, hx, hcase⟩ := mem_updateBy Product.id products id _ p hp
  rcases hcase with h' | ⟨_, h'⟩
  · rw [h']
    exact h x hx
  · rw [h']
    show (0 : ℚ) ≤ max 0 (x.stockQuantity - q)
    exact le_max_left 0 _

theorem runDecreases_nonneg (ops : List (String × ℚ × Nat)) (products : List Product)
    (h : ∀ p ∈ products, 0 ≤ p.stockQuantity) :
    ∀ p ∈ runDecreases products ops, 0 ≤ p.stockQuantity := by
  induction ops generalizing products with
  | nil => exact h
  | cons a rest ih => exact ih _ (decreaseStock_nonneg products a.1 a.2.1 a.2.2 h)

/-- C10: decreaseStock sets the product's stockQuantity to
max(0, stockQuantity − quantity): the targeted row is updated pointwise,
decreasing by at least the available stock silently clamps the value to
zero instead of failing, and after any sequence of decreaseStock calls a
non-negative stock table stays non-negative. -/
theorem decreaseStock_clamps (products : List Product) (id : String) (quantity : ℚ)
    (now : Nat) :
    (∀ p, findBy Product.id products id = some p →
      findBy Product.id (decreaseStock products id quantity now) id =
        some { p with
          stockQuantity := max 0 (p.stockQuantity - quantity), updatedAt := now }) ∧
    (∀ p, findBy Product.id products id = some p → p.stockQuantity ≤ quantity →
      findBy Product.id (decreaseStock products id quantity now) id =
        some { p with stockQuantity := 0, updatedAt := now }) ∧
    (∀ ops : List (String × ℚ × Nat), (∀ p ∈ products, 0 ≤ p.stockQuantity) →
      ∀ p ∈ runDecreases products ops, 0 ≤ p.stockQuantity) := by
  have hpoint : ∀ p, findBy Product.id products id = some p →
      findBy Product.id (decreaseStock products id quantity now) id =
        some { p with
          stockQuantity := max 0 (p.stockQuantity - quantity), updatedAt := now } := by
    intro p hp
    have heq := findBy_updateBy Product.id products id
      (fun r => { r with stockQuantity := max 0 (r.stockQuantity - quantity), updatedAt := now })
      (fun _ => rfl)
    rw [hp, Option.map_some'] at heq
    exact heq
  refine ⟨hpoint, ?_, ?_⟩
  · intro p hp hle
    have h1 := hpoint p hp
    rw [show max 0 (p.stockQuantity - quantity) = 0 from
      max_eq_left (by linarith)] at h1
    exact h1
  · intro ops h
    exact runDecreases_nonneg ops products h

def c10prod : Product :=
  { id := "prod_1", storeId := "store_1", name := "Widget", price := 4,
    stockQuantity := 5, isActive := true, updatedAt := 0 }

theorem decreaseStock_clamps_witness :
    findBy Product.id (decreaseStock [c10prod] "prod_1" 5 3) "prod_1" =
      some { c10prod with stockQuantity := 0, updatedAt := 3 } :=
  (decreaseStock_clamps [c10prod] "prod_1" 5 3).2.1 c10prod rfl (le_refl 5)
